import Mathlib

/-
Verification of the civic-weave matching and enrollment core.

The development shallowly embeds, in Lean, the parts of the system that the
verified properties speak about:

- the enrollment service (backend/internal/enrollment/service.go):
  CreateEnrollment, UpdateEnrollmentStatus, with the volunteer_enrollments
  table modelled as a list of rows and SQL errors as strings;
- the enrollment HTTP handler's error classification
  (backend/internal/api/enrollment_handlers.go);
- the batch match refresh (database/migrations/006_batch_matching.up.sql,
  function refresh_all_matches) over a relational state;
- the on-demand matching path (database/migrations/002 bundle, function
  find_matching_volunteers, and backend/internal/matching/service.go,
  findMatchingVolunteersOnDemand);
- the skill-vector builders (get_volunteer_skill_vector /
  get_project_skill_vector) and the Go CosineSimilarity.

Numeric values (scores, weights, coordinates, distances) are modelled as
exact rationals.  Three computations performed by external engines are taken
as parameters of the embedding rather than re-derived: the PostgreSQL
hashtext hash (parameter h : Nat -> Nat, standing for abs(hashtext(id)));
the trigonometric haversine evaluation (parameter hav, standing for the
closed-form SQL expression over SIN/COS/ASIN); and square roots (parameter
sqrtQ, standing for math.Sqrt / vector norms), with only the hypotheses the
source guarantees (for example sqrtQ 0 = 0).  Every theorem below is proved
for all instantiations of these parameters.
-/

/-- A row of the volunteer_enrollments table, as read and written by the Go
enrollment service (models.Enrollment).  Timestamps are abstract Nat
instants; nullable columns are Option. -/
structure Enrollment where
  id : Nat
  volunteerId : Nat
  projectId : Nat
  status : String
  initiatedBy : Nat
  message : Option String
  responseMessage : Option String
  approvedAt : Option Nat
  deriving Repr, DecidableEq

/-- Substring search on character lists, the model of Go strings.Contains
and of the SQL LIKE pattern with wildcards on both sides. -/
def charsContains (pat : List Char) : List Char → Bool
  | [] => pat.isEmpty
  | c :: t => pat.isPrefixOf (c :: t) || charsContains pat t

/-- strContains s pat holds when pat occurs inside s. -/
def strContains (s pat : String) : Bool :=
  charsContains pat.data s.data

/-- Lower-casing of a string, the model of Go strings.ToLower and of the
case folding performed by SQL ILIKE. -/
def lowerStr (s : String) : String :=
  ⟨s.data.map Char.toLower⟩

/-- The PostgreSQL unique-violation message raised by the
UNIQUE(volunteer_id, project_id) constraint on volunteer_enrollments. -/
def duplicateKeyMsg : String :=
  "pq: duplicate key value violates unique constraint \"volunteer_enrollments_volunteer_id_project_id_key\""

/-- The row CreateEnrollment inserts for a fresh pair (service.go: INSERT
INTO volunteer_enrollments ... RETURNING ...). -/
def newEnrollmentRow (newId volunteerId projectId : Nat) (status msg : String)
    (initiatedBy : Nat) : Enrollment :=
  { id := newId, volunteerId := volunteerId, projectId := projectId,
    status := status, initiatedBy := initiatedBy,
    message := if msg = "" then none else some msg,
    responseMessage := none, approvedAt := none }

/-- The INSERT step of CreateEnrollment: the unique (volunteer_id,
project_id) key makes the insert fail, whatever the existing row's status,
and the service wraps the database error. -/
def createInsert (db : List Enrollment) (newId volunteerId projectId : Nat)
    (status msg : String) (initiatedBy : Nat) :
    Except String (Enrollment × List Enrollment) :=
  if db.any (fun e => e.volunteerId == volunteerId && e.projectId == projectId) then
    .error ("failed to create enrollment: " ++ duplicateKeyMsg)
  else
    let row := newEnrollmentRow newId volunteerId projectId status msg initiatedBy
    .ok (row, db ++ [row])

/-- CreateEnrollment of enrollment/service.go: the action picks the initial
status (request -> requested, invite -> invited, otherwise an invalid-action
error), then the row is inserted. -/
def CreateEnrollment (db : List Enrollment) (newId volunteerId projectId : Nat)
    (action msg : String) (initiatedBy : Nat) :
    Except String (Enrollment × List Enrollment) :=
  if action = "request" then
    createInsert db newId volunteerId projectId "requested" msg initiatedBy
  else if action = "invite" then
    createInsert db newId volunteerId projectId "invited" msg initiatedBy
  else
    .error ("invalid action: " ++ action ++ " (must be \x27request\x27 or \x27invite\x27)")

/-- CreateEnrollment together with the resulting table: on error the table
is unchanged (the failed INSERT wrote nothing). -/
def CreateEnrollmentRun (db : List Enrollment) (newId volunteerId projectId : Nat)
    (action msg : String) (initiatedBy : Nat) :
    List Enrollment × Option String :=
  match CreateEnrollment db newId volunteerId projectId action msg initiatedBy with
  | .ok (_, db2) => (db2, none)
  | .error m => (db, some m)

/-- The handler's duplicate-enrollment test (enrollment_handlers.go): the
lower-cased error text must contain both "duplicate key" and the name of the
unique constraint. -/
def isDuplicateEnrollmentError (err : String) : Bool :=
  strContains (lowerStr err) "duplicate key" &&
    strContains (lowerStr err) "volunteer_enrollments_volunteer_id_project_id_key"

/-- HTTP status the handler answers with when CreateEnrollment fails:
409 Conflict for a duplicate pair, 500 otherwise. -/
def createEnrollmentHttpStatus (err : String) : Nat :=
  if isDuplicateEnrollmentError err then 409 else 500

/-- Row lookup by primary key (SELECT status FROM volunteer_enrollments
WHERE id = $1). -/
def findEnrollment (db : List Enrollment) (i : Nat) : Option Enrollment :=
  db.find? (fun e => e.id == i)

/-- The transition table of UpdateEnrollmentStatus: from the current status
and the action, the new status, or the error the service formats. -/
def transitionStatus (currentStatus action : String) : Except String String :=
  if action = "accept" then
    if currentStatus = "requested" ∨ currentStatus = "invited" then .ok "enrolled"
    else .error ("cannot accept enrollment in status: " ++ currentStatus)
  else if action = "reject" then
    if currentStatus = "requested" then .ok "tl_rejected"
    else if currentStatus = "invited" then .ok "v_rejected"
    else .error ("cannot reject enrollment in status: " ++ currentStatus)
  else if action = "withdraw" then
    if currentStatus = "requested" then .ok "v_rejected"
    else .error ("cannot withdraw enrollment in status: " ++ currentStatus)
  else
    .error ("invalid action: " ++ action ++ " (must be \x27accept\x27 or \x27reject\x27)")

/-- Effect of the UPDATE statement on one row: the new status is written,
response_message is overwritten, and approved_at is set to the current time
exactly when the new status is enrolled. -/
def applyTransition (newStatus rm : String) (now : Nat) (r : Enrollment) : Enrollment :=
  { r with status := newStatus,
           responseMessage := if rm = "" then none else some rm,
           approvedAt := if newStatus = "enrolled" then some now else r.approvedAt }

/-- The table after the UPDATE ... WHERE id = $1 of UpdateEnrollmentStatus. -/
def updatedDb (db : List Enrollment) (i : Nat) (newStatus rm : String)
    (now : Nat) : List Enrollment :=
  db.map fun r => if r.id == i then applyTransition newStatus rm now r else r

/-- UpdateEnrollmentStatus of enrollment/service.go: read the current
status (not-found error when the id is unknown), consult the transition
table, and on success apply the UPDATE. -/
def UpdateEnrollmentStatus (db : List Enrollment) (i : Nat)
    (action rm : String) (now : Nat) : Except String (List Enrollment) :=
  match findEnrollment db i with
  | none => .error "enrollment not found"
  | some e =>
    match transitionStatus e.status action with
    | .error m => .error m
    | .ok newStatus => .ok (updatedDb db i newStatus rm now)

/-- UpdateEnrollmentStatus together with the resulting table: a failed
transition leaves every row as it was (the service returns before the
UPDATE runs). -/
def UpdateEnrollmentStatusRun (db : List Enrollment) (i : Nat)
    (action rm : String) (now : Nat) : List Enrollment × Option String :=
  match UpdateEnrollmentStatus db i action rm now with
  | .ok db2 => (db2, none)
  | .error m => (db, some m)

/-- A row of the projects table, with the columns the matching core reads. -/
structure Project where
  id : Nat
  status : String
  latitude : Option ℚ
  longitude : Option ℚ
  locationName : Option String
  deriving Repr, DecidableEq

/-- A row of the users table, with the columns the matching core reads. -/
structure User where
  id : Nat
  role : String
  latitude : Option ℚ
  longitude : Option ℚ
  locationName : Option String
  deriving Repr, DecidableEq

/-- A row of volunteer_skills: a claim of one skill by one volunteer. -/
structure VolunteerSkill where
  volunteerId : Nat
  skillId : Nat
  claimed : Bool
  score : ℚ
  deriving Repr, DecidableEq

/-- A row of project_skills: one skill demanded by one project. -/
structure ProjectSkill where
  projectId : Nat
  skillId : Nat
  weight : ℚ
  deriving Repr, DecidableEq

/-- A row of the skills catalog. -/
structure Skill where
  id : Nat
  name : String
  deriving Repr, DecidableEq

/-- The relational state the matching core reads. -/
structure Db where
  projects : List Project
  users : List User
  volunteerSkills : List VolunteerSkill
  projectSkills : List ProjectSkill
  skills : List Skill
  enrollments : List Enrollment
  deriving Repr

/-- Case-insensitive containment: the model of SQL ILIKE with a pattern
wrapped in wildcards on both sides. -/
def ilikeContains (s pat : String) : Bool :=
  strContains (lowerStr s) (lowerStr pat)

/-- The named regions the refresh function tests with ILIKE. -/
def canadianRegions : List String :=
  ["Canada", "Ontario", "Alberta", "British Columbia", "Quebec", "Manitoba",
   "Saskatchewan", "Nova Scotia", "New Brunswick", "Newfoundland",
   "Prince Edward Island", "Northwest Territories", "Yukon", "Nunavut"]

/-- The regional policy of refresh_all_matches: the two location strings
fall in the same designated region when some configured region name occurs
in both (a NULL location never matches, as in SQL). -/
def sameRegion : Option String → Option String → Bool
  | some p, some u => canadianRegions.any fun r => ilikeContains p r && ilikeContains u r
  | _, _ => false

/-- One pre-scored pair of the volunteer_project_combinations CTE. -/
structure MatchCombo where
  projectId : Nat
  volunteerId : Nat
  pLocation : Option String
  uLocation : Option String
  skillScore : ℚ
  distanceKm : ℚ
  matchedSkills : List String
  deriving Repr, DecidableEq

/-- A row of project_volunteer_matches, the match cache. -/
structure MatchRecord where
  projectId : Nat
  volunteerId : Nat
  skillScore : ℚ
  distanceKm : ℚ
  combinedScore : ℚ
  matchedSkills : List String
  deriving Repr, DecidableEq

/-- Tier-1 eligibility of refresh_all_matches (the WHERE clause of the
volunteer_project_combinations CTE): active project, volunteer role, known
volunteer coordinates, and no volunteer_enrollments row for the pair whose
status is the string active. -/
def tier1Eligible (db : Db) (p : Project) (u : User) : Bool :=
  p.status == "active" && u.role == "volunteer" &&
    u.latitude.isSome && u.longitude.isSome &&
    !(db.enrollments.any fun ve =>
        ve.volunteerId == u.id && ve.projectId == p.id && ve.status == "active")

/-- The distance_km CASE of the CTE: the haversine expression hav when all
four coordinates are present, the 999999 sentinel otherwise. -/
def comboDistance (hav : ℚ → ℚ → ℚ → ℚ → ℚ) (p : Project) (u : User) : ℚ :=
  match p.latitude, p.longitude, u.latitude, u.longitude with
  | some plat, some plon, some ulat, some ulon => hav plat plon ulat ulon
  | _, _, _, _ => 999999

/-- The matched_skills ARRAY subquery: names of skills both claimed by the
volunteer and demanded by the project. -/
def matchedSkillNames (db : Db) (volunteerId projectId : Nat) : List String :=
  (db.volunteerSkills.filter fun vs => vs.volunteerId == volunteerId && vs.claimed).flatMap
    fun vs =>
      if db.projectSkills.any (fun ps => ps.projectId == projectId && ps.skillId == vs.skillId) then
        (db.skills.filter fun s => s.id == vs.skillId).map (fun s => s.name)
      else []

/-- The volunteer_project_combinations CTE of refresh_all_matches: the cross
product of projects and users, restricted to tier-1-eligible pairs, with the
pgvector skill score abstracted as skillScoreFn. -/
def volunteerProjectCombinations (hav : ℚ → ℚ → ℚ → ℚ → ℚ)
    (skillScoreFn : Nat → Nat → ℚ) (db : Db) : List MatchCombo :=
  db.projects.flatMap fun p =>
    (db.users.filter fun u => tier1Eligible db p u).map fun u =>
      { projectId := p.id, volunteerId := u.id,
        pLocation := p.locationName, uLocation := u.locationName,
        skillScore := skillScoreFn u.id p.id,
        distanceKm := comboDistance hav p u,
        matchedSkills := matchedSkillNames db u.id p.id }

/-- The combined_score CASE of the tiered_matches CTE: the skills-priority
regime 0.7/0.3 in the same designated region, the distance-priority regime
0.4/0.6 otherwise. -/
def comboCombinedScore (c : MatchCombo) : ℚ :=
  if sameRegion c.pLocation c.uLocation then
    7/10 * c.skillScore + 3/10 * max 0 (1 - c.distanceKm / 100)
  else
    4/10 * c.skillScore + 6/10 * max 0 (1 - c.distanceKm / 100)

/-- The tiered_matches CTE: drop pairs beyond the 500 km radius, then attach
the combined score. -/
def tieredMatches (combos : List MatchCombo) : List MatchRecord :=
  (combos.filter fun c => decide (c.distanceKm ≤ 500)).map fun c =>
    { projectId := c.projectId, volunteerId := c.volunteerId,
      skillScore := c.skillScore, distanceKm := c.distanceKm,
      combinedScore := comboCombinedScore c,
      matchedSkills := c.matchedSkills }

/-- Insertion into a list kept in descending key order. -/
def insertDescBy {α : Type} (key : α → ℚ) (r : α) : List α → List α
  | [] => [r]
  | x :: xs => if key r ≤ key x then x :: insertDescBy key r xs else r :: x :: xs

/-- Sorting in descending key order, the model of ORDER BY ... DESC. -/
def sortDescBy {α : Type} (key : α → ℚ) : List α → List α
  | [] => []
  | x :: xs => insertDescBy key x (sortDescBy key xs)

/-- refresh_all_matches of 006_batch_matching.up.sql: recompute every
surviving pair, keep those above the 0.1 combined-score threshold, ordered
by combined score descending.  The returned list is the refreshed content of
project_volunteer_matches. -/
def refresh_all_matches (hav : ℚ → ℚ → ℚ → ℚ → ℚ)
    (skillScoreFn : Nat → Nat → ℚ) (db : Db) : List MatchRecord :=
  sortDescBy (fun r => r.combinedScore)
    ((tieredMatches (volunteerProjectCombinations hav skillScoreFn db)).filter
      fun r => decide (r.combinedScore > 1/10))

/-- A row returned by the on-demand find_matching_volunteers function. -/
structure OnDemandMatch where
  volunteerId : Nat
  skillScore : ℚ
  distanceKm : ℚ
  combinedScore : ℚ
  deriving Repr, DecidableEq

/-- The distance filter of find_matching_volunteers: a pair with unknown
distance is kept (vm.distance IS NULL OR vm.distance <= p_max_distance_km). -/
def onDemandDistanceOk (d : Option ℚ) (maxKm : ℚ) : Bool :=
  match d with
  | none => true
  | some x => decide (x ≤ maxKm)

/-- The distance factor of the on-demand combined score: the normalized
proximity when the distance is known and the radius positive, the neutral
0.5 otherwise. -/
def onDemandDistanceFactor (d : Option ℚ) (maxKm : ℚ) : ℚ :=
  match d with
  | some x => if 0 < maxKm then max 0 (1 - x / maxKm) else 1/2
  | none => 1/2

/-- find_matching_volunteers of the 002 migration bundle (haversine branch;
the PostGIS branch has the same shape): score every volunteer against the
one project, keep those within the radius or with unknown distance, order by
combined score descending, and return the first limit rows. -/
def find_matching_volunteers (hav : ℚ → ℚ → ℚ → ℚ → ℚ)
    (skillScoreFn : Nat → Nat → ℚ) (db : Db) (projectId : Nat)
    (skillWeight distanceWeight maxDistanceKm : ℚ) (limit : Nat) :
    List OnDemandMatch :=
  match db.projects.find? (fun p => p.id == projectId) with
  | none => []
  | some p =>
    let rows := (db.users.filter fun u => u.role == "volunteer").map fun u =>
      let dist : Option ℚ :=
        match u.latitude, u.longitude, p.latitude, p.longitude with
        | some ulat, some ulon, some plat, some plon => some (hav ulat ulon plat plon)
        | _, _, _, _ => none
      (u.id, skillScoreFn u.id p.id, dist)
    let eligible := rows.filter fun t => onDemandDistanceOk t.2.2 maxDistanceKm
    let scored := eligible.map fun t =>
      { volunteerId := t.1, skillScore := t.2.1,
        distanceKm := (t.2.2).getD 0,
        combinedScore :=
          skillWeight * t.2.1 +
            distanceWeight * onDemandDistanceFactor t.2.2 maxDistanceKm }
    (sortDescBy (fun r => r.combinedScore) scored).take limit

/-- Weight preparation of findMatchingVolunteersOnDemand (matching
service.go): both weights zero means the 0.7/0.3 defaults, then the pair is
normalized by its sum. -/
def normalizeOnDemandWeights (skillWeight distanceWeight : ℚ) : ℚ × ℚ :=
  let sw := if skillWeight = 0 ∧ distanceWeight = 0 then (7/10 : ℚ) else skillWeight
  let dw := if skillWeight = 0 ∧ distanceWeight = 0 then (3/10 : ℚ) else distanceWeight
  (sw / (sw + dw), dw / (sw + dw))

/-- findMatchingVolunteersOnDemand of matching/service.go: normalize the
weights, apply the 100 km and 20-row defaults, and delegate to
find_matching_volunteers. -/
def findMatchingVolunteersOnDemand (hav : ℚ → ℚ → ℚ → ℚ → ℚ)
    (skillScoreFn : Nat → Nat → ℚ) (db : Db) (projectId : Nat)
    (skillWeight distanceWeight maxDistanceKm : ℚ) (limit : Nat) :
    List OnDemandMatch :=
  let w := normalizeOnDemandWeights skillWeight distanceWeight
  let maxKm := if maxDistanceKm = 0 then 100 else maxDistanceKm
  let lim := if limit = 0 then 20 else limit
  find_matching_volunteers hav skillScoreFn db projectId w.1 w.2 maxKm lim

/-- Value of one slot of a hashed skill vector: the SQL takes
COALESCE(MAX(score), 0) over the rows hashed to that position. -/
def slotValue (positions : List (Nat × ℚ)) (pos : Nat) : ℚ :=
  match (positions.filter fun q => q.1 == pos).map (fun q => q.2) with
  | [] => 0
  | v :: vs => vs.foldl max v

/-- The dense-vector construction shared by get_volunteer_skill_vector and
get_project_skill_vector: each (skill id, value) pair lands at position
h(id) % D + 1 (h models abs(hashtext(id::text))), positions are 1..D, and
colliding pairs keep the maximum value. -/
def buildSkillVector (h : Nat → Nat) (D : Nat) (pairs : List (Nat × ℚ)) : List ℚ :=
  let positions := pairs.map fun q => (h q.1 % D + 1, q.2)
  (List.range D).map fun i => slotValue positions (i + 1)

/-- The claimed skills of one volunteer, as (skill id, score) pairs. -/
def volunteerSkillPairs (db : Db) (volunteerId : Nat) : List (Nat × ℚ) :=
  (db.volunteerSkills.filter fun vs => vs.volunteerId == volunteerId && vs.claimed).map
    fun vs => (vs.skillId, vs.score)

/-- get_volunteer_skill_vector of the 002 migration bundle. -/
def get_volunteer_skill_vector (h : Nat → Nat) (D : Nat) (db : Db)
    (volunteerId : Nat) : List ℚ :=
  buildSkillVector h D (volunteerSkillPairs db volunteerId)

/-- The demanded skills of one project, as (skill id, weight) pairs. -/
def projectSkillPairs (db : Db) (projectId : Nat) : List (Nat × ℚ) :=
  (db.projectSkills.filter fun ps => ps.projectId == projectId).map
    fun ps => (ps.skillId, ps.weight)

/-- get_project_skill_vector of the 002 migration bundle. -/
def get_project_skill_vector (h : Nat → Nat) (D : Nat) (db : Db)
    (projectId : Nat) : List ℚ :=
  buildSkillVector h D (projectSkillPairs db projectId)

/-- Lookup in a Go map modelled as an association list (SkillVector). -/
def mapLookup (v : List (String × ℚ)) (k : String) : Option ℚ :=
  (v.find? fun q => q.1 == k).map (fun q => q.2)

/-- CosineSimilarity of matching/service.go over sparse skill vectors, with
math.Sqrt abstracted as sqrtQ: empty input or a zero magnitude answers 0
before any division, and the quotient is clamped into the unit interval. -/
def CosineSimilarity (sqrtQ : ℚ → ℚ) (v1 v2 : List (String × ℚ)) : ℚ :=
  if v1.length = 0 ∨ v2.length = 0 then 0
  else
    let dotProduct := v1.foldl (fun acc q =>
      match mapLookup v2 q.1 with
      | some val2 => acc + q.2 * val2
      | none => acc) 0
    let magnitude1 := sqrtQ (v1.foldl (fun acc q => acc + q.2 * q.2) 0)
    let magnitude2 := sqrtQ (v2.foldl (fun acc q => acc + q.2 * q.2) 0)
    if magnitude1 = 0 ∨ magnitude2 = 0 then 0
    else
      let similarity := dotProduct / (magnitude1 * magnitude2)
      if similarity < 0 then 0
      else if similarity > 1 then 1
      else similarity

/-- Abstract haversine instantiation used on concrete inputs: distance 0. -/
def hav0 : ℚ → ℚ → ℚ → ℚ → ℚ := fun _ _ _ _ => 0

/-- Abstract skill-score instantiation used on concrete inputs: score 1. -/
def score1 : Nat → Nat → ℚ := fun _ _ => 1

/-- Abstract square-root instantiation used on concrete inputs. -/
def sqrtId : ℚ → ℚ := fun x => x

/-- An enrollment row in status requested. -/
def reqRow : Enrollment := ⟨1, 2, 1, "requested", 2, none, none, none⟩

/-- An enrollment row in status invited. -/
def invRow : Enrollment := ⟨7, 4, 3, "invited", 9, none, none, none⟩

/-- An enrollment row in the terminal status enrolled. -/
def enrRow : Enrollment := ⟨1, 2, 1, "enrolled", 2, none, none, some 3⟩

/-- A one-row enrollment table holding a requested row. -/
def edbReq : List Enrollment := [reqRow]

/-- A one-row enrollment table holding an invited row. -/
def edbInv : List Enrollment := [invRow]

/-- A one-row enrollment table holding an enrolled row. -/
def edbEnr : List Enrollment := [enrRow]

/-- An active project located in Ontario. -/
def demoProject : Project := ⟨1, "active", some 0, some 0, some "Ontario"⟩

/-- A volunteer with known coordinates, located in Ontario. -/
def demoUser : User := ⟨2, "volunteer", some 0, some 0, some "Ontario"⟩

/-- A volunteer with no known coordinates. -/
def noLocUser : User := ⟨3, "volunteer", none, none, some "Ontario"⟩

/-- A state with one active project and one locatable volunteer. -/
def demoDb : Db := ⟨[demoProject], [demoUser], [], [], [], []⟩

/-- The same state with the pair already enrolled (status enrolled). -/
def enrolledDb : Db := ⟨[demoProject], [demoUser], [], [], [], [enrRow]⟩

/-- A state whose only volunteer has no location. -/
def noLocDb : Db := ⟨[demoProject], [noLocUser], [], [], [], []⟩

/-- The match record the batch refresh produces on demoDb. -/
def demoRecord : MatchRecord := ⟨1, 2, 1, 0, 1, []⟩

/-- The pre-scored combination the CTE produces on demoDb (same on
enrolledDb, whose enrolled row the tier-1 filter fails to catch). -/
def demoCombo : MatchCombo := ⟨1, 2, some "Ontario", some "Ontario", 1, 0, []⟩

/-- The not-found error of UpdateEnrollmentStatus is distinct from every
invalid-transition error, all of which start with the word cannot. -/
theorem notfound_ne_cannot (s : String) :
    "enrollment not found" ≠ "cannot " ++ s := by
  intro h
  have h2 := congrArg String.data h
  rw [String.data_append] at h2
  simp at h2

/-- The UPDATE of UpdateEnrollmentStatus rewrites exactly the row whose id
matched, so the lookup afterwards returns the transitioned row. -/
theorem findEnrollment_updatedDb (db : List Enrollment) (i : Nat) (e : Enrollment)
    (ns rm : String) (now : Nat) (he : findEnrollment db i = some e) :
    findEnrollment (updatedDb db i ns rm now) i = some (applyTransition ns rm now e) := by
  induction db with
  | nil => simp [findEnrollment] at he
  | cons a l ih =>
    by_cases h : (a.id == i) = true
    · have ha : a = e := by
        rw [findEnrollment] at he
        rw [List.find?_cons_of_pos (p := fun x : Enrollment => x.id == i) _ h] at he
        exact Option.some.inj he
      subst ha
      rw [updatedDb, List.map_cons, if_pos h, findEnrollment]
      rw [List.find?_cons_of_pos (p := fun x : Enrollment => x.id == i)]
      show ((applyTransition ns rm now a).id == i) = true
      simpa [applyTransition] using h
    · have he2 : findEnrollment l i = some e := by
        rw [findEnrollment] at he ⊢
        rwa [List.find?_cons_of_neg (p := fun x : Enrollment => x.id == i) _ (by simpa using h)] at he
      have ih2 := ih he2
      rw [updatedDb, List.map_cons, if_neg h, findEnrollment,
        List.find?_cons_of_neg (p := fun x : Enrollment => x.id == i) _ (by simpa using h)]
      exact ih2

/-- Membership is preserved by ordered insertion. -/
theorem mem_insertDescBy {α : Type} (key : α → ℚ) (r a : α) (l : List α) :
    a ∈ insertDescBy key r l ↔ a = r ∨ a ∈ l := by
  induction l with
  | nil => simp [insertDescBy]
  | cons x xs ih =>
    rw [insertDescBy]
    by_cases h : key r ≤ key x
    · rw [if_pos h]
      simp only [List.mem_cons, ih]
      try tauto
    · rw [if_neg h]
      simp only [List.mem_cons]
      try tauto

/-- Sorting by descending key neither adds nor removes rows. -/
theorem mem_sortDescBy {α : Type} (key : α → ℚ) (a : α) (l : List α) :
    a ∈ sortDescBy key l ↔ a ∈ l := by
  induction l with
  | nil => simp [sortDescBy]
  | cons x xs ih =>
    rw [sortDescBy, mem_insertDescBy]
    simp [ih]
    try tauto

/-- A left fold by max dominates its initial value. -/
theorem le_foldl_max (v : ℚ) (vs : List ℚ) : v ≤ vs.foldl max v := by
  induction vs generalizing v with
  | nil => simp
  | cons x xs ih => exact le_trans (le_max_left v x) (ih (max v x))

/-- A left fold by max dominates every list element. -/
theorem mem_le_foldl_max (v x : ℚ) (vs : List ℚ) (hx : x ∈ vs) :
    x ≤ vs.foldl max v := by
  induction vs generalizing v with
  | nil => cases hx
  | cons y ys ih =>
    rw [List.foldl_cons]
    rcases List.mem_cons.mp hx with rfl | h
    · exact le_trans (le_max_right v x) (le_foldl_max _ _)
    · exact ih _ h

/-- A left fold by max is attained: it is the initial value or an element. -/
theorem foldl_max_mem (v : ℚ) (vs : List ℚ) :
    vs.foldl max v = v ∨ vs.foldl max v ∈ vs := by
  induction vs generalizing v with
  | nil => left; rfl
  | cons x xs ih =>
    rw [List.foldl_cons]
    rcases ih (max v x) with h | h
    · rcases max_choice v x with hm | hm
      · left; rw [h, hm]
      · right; rw [h, hm]; exact List.mem_cons_self x xs
    · right; exact List.mem_cons_of_mem x h

/-- Accumulating squares of all-zero components changes nothing. -/
theorem foldl_add_sq_zero (v : List (String × ℚ)) (acc : ℚ)
    (hz : ∀ q ∈ v, q.2 = 0) :
    v.foldl (fun a q => a + q.2 * q.2) acc = acc := by
  induction v generalizing acc with
  | nil => rfl
  | cons q qs ih =>
    rw [List.foldl_cons]
    have hq : q.2 = 0 := hz q (List.mem_cons_self q qs)
    rw [hq, mul_zero, add_zero]
    exact ih acc (fun p hp => hz p (List.mem_cons_of_mem q hp))

/-- C2: the realized enrollment transition function equals the spec table:
accept on a requested or invited row yields enrolled and sets the approved
timestamp; reject on requested yields tl_rejected; reject on invited yields
v_rejected; withdraw on requested yields v_rejected; and initiation with
action request creates status requested while invite creates invited. -/
theorem enrollment_transition_table
    (dbR : List Enrollment) (iR : Nat) (eR : Enrollment)
    (dbI : List Enrollment) (iI : Nat) (eI : Enrollment)
    (rm : String) (now : Nat)
    (db0 : List Enrollment) (nid v p ib : Nat) (msg : String)
    (heR : findEnrollment dbR iR = some eR) (hstR : eR.status = "requested")
    (heI : findEnrollment dbI iI = some eI) (hstI : eI.status = "invited")
    (hfresh : ∀ e0 ∈ db0, ¬(e0.volunteerId = v ∧ e0.projectId = p)) :
    (UpdateEnrollmentStatus dbR iR "accept" rm now =
        .ok (updatedDb dbR iR "enrolled" rm now) ∧
      findEnrollment (updatedDb dbR iR "enrolled" rm now) iR =
        some (applyTransition "enrolled" rm now eR) ∧
      (applyTransition "enrolled" rm now eR).status = "enrolled" ∧
      (applyTransition "enrolled" rm now eR).approvedAt = some now) ∧
    (UpdateEnrollmentStatus dbI iI "accept" rm now =
        .ok (updatedDb dbI iI "enrolled" rm now) ∧
      findEnrollment (updatedDb dbI iI "enrolled" rm now) iI =
        some (applyTransition "enrolled" rm now eI) ∧
      (applyTransition "enrolled" rm now eI).status = "enrolled" ∧
      (applyTransition "enrolled" rm now eI).approvedAt = some now) ∧
    (UpdateEnrollmentStatus dbR iR "reject" rm now =
        .ok (updatedDb dbR iR "tl_rejected" rm now) ∧
      (applyTransition "tl_rejected" rm now eR).status = "tl_rejected") ∧
    (UpdateEnrollmentStatus dbI iI "reject" rm now =
        .ok (updatedDb dbI iI "v_rejected" rm now) ∧
      (applyTransition "v_rejected" rm now eI).status = "v_rejected") ∧
    (UpdateEnrollmentStatus dbR iR "withdraw" rm now =
        .ok (updatedDb dbR iR "v_rejected" rm now) ∧
      (applyTransition "v_rejected" rm now eR).status = "v_rejected") ∧
    (CreateEnrollment db0 nid v p "request" msg ib =
        .ok (newEnrollmentRow nid v p "requested" msg ib,
          db0 ++ [newEnrollmentRow nid v p "requested" msg ib]) ∧
      (newEnrollmentRow nid v p "requested" msg ib).status = "requested") ∧
    (CreateEnrollment db0 nid v p "invite" msg ib =
        .ok (newEnrollmentRow nid v p "invited" msg ib,
          db0 ++ [newEnrollmentRow nid v p "invited" msg ib]) ∧
      (newEnrollmentRow nid v p "invited" msg ib).status = "invited") := by
  have hany : db0.any (fun e => e.volunteerId == v && e.projectId == p) = false := by
    rw [List.any_eq_false]
    intro x hx
    have hx2 := hfresh x hx
    simp only [Bool.and_eq_true, beq_iff_eq]
    exact hx2
  refine ⟨⟨?_, ?_, ?_, ?_⟩, ⟨?_, ?_, ?_, ?_⟩, ⟨?_, ?_⟩, ⟨?_, ?_⟩, ⟨?_, ?_⟩,
    ⟨?_, ?_⟩, ⟨?_, ?_⟩⟩
  · simp [UpdateEnrollmentStatus, heR, transitionStatus, hstR]
  · exact findEnrollment_updatedDb dbR iR eR "enrolled" rm now heR
  · rfl
  · simp [applyTransition]
  · simp [UpdateEnrollmentStatus, heI, transitionStatus, hstI]
  · exact findEnrollment_updatedDb dbI iI eI "enrolled" rm now heI
  · rfl
  · simp [applyTransition]
  · simp [UpdateEnrollmentStatus, heR, transitionStatus, hstR]
  · rfl
  · simp [UpdateEnrollmentStatus, heI, transitionStatus, hstI]
  · rfl
  · simp [UpdateEnrollmentStatus, heR, transitionStatus, hstR]
  · rfl
  · simp [CreateEnrollment, createInsert, hany]
  · rfl
  · simp [CreateEnrollment, createInsert, hany]
  · rfl

/-- Witness for C2 on concrete one-row tables. -/
theorem enrollment_transition_table_witness :
    (findEnrollment edbReq 1 = some reqRow ∧ reqRow.status = "requested" ∧
      findEnrollment edbInv 7 = some invRow ∧ invRow.status = "invited" ∧
      (∀ e0 ∈ ([] : List Enrollment), ¬(e0.volunteerId = 2 ∧ e0.projectId = 1))) ∧
    (UpdateEnrollmentStatus edbReq 1 "accept" "" 5 =
        .ok (updatedDb edbReq 1 "enrolled" "" 5) ∧
      (applyTransition "enrolled" "" 5 reqRow).approvedAt = some 5) ∧
    UpdateEnrollmentStatus edbInv 7 "reject" "" 5 =
      .ok (updatedDb edbInv 7 "v_rejected" "" 5) :=
  ⟨⟨by decide, by decide, by decide, by decide, by decide⟩,
    ⟨(enrollment_transition_table edbReq 1 reqRow edbInv 7 invRow "" 5 [] 11 2 1 2 ""
        (by decide) (by decide) (by decide) (by decide) (by decide)).1.1,
      (enrollment_transition_table edbReq 1 reqRow edbInv 7 invRow "" 5 [] 11 2 1 2 ""
        (by decide) (by decide) (by decide) (by decide) (by decide)).1.2.2.2⟩,
    (enrollment_transition_table edbReq 1 reqRow edbInv 7 invRow "" 5 [] 11 2 1 2 ""
        (by decide) (by decide) (by decide) (by decide) (by decide)).2.2.2.1.1⟩

/-- C3: on a terminal row (enrolled, tl_rejected or v_rejected) every
transition attempt fails with an error naming the requested action and the
current status and the table is unchanged; an unknown enrollment id fails
with the distinct not-found error. -/
theorem enrollment_terminal_invalid
    (db : List Enrollment) (i : Nat) (e : Enrollment) (action rm : String)
    (now j : Nat)
    (he : findEnrollment db i = some e)
    (hterm : e.status = "enrolled" ∨ e.status = "tl_rejected" ∨ e.status = "v_rejected")
    (hact : action = "accept" ∨ action = "reject" ∨ action = "withdraw")
    (hj : findEnrollment db j = none) :
    UpdateEnrollmentStatusRun db i action rm now =
      (db, some ("cannot " ++ action ++ " enrollment in status: " ++ e.status)) ∧
    UpdateEnrollmentStatusRun db j action rm now = (db, some "enrollment not found") ∧
    "enrollment not found" ≠ "cannot " ++ action ++ " enrollment in status: " ++ e.status := by
  refine ⟨?_, ?_, ?_⟩
  · rcases hact with rfl | rfl | rfl <;> rcases hterm with h | h | h <;>
      simp [UpdateEnrollmentStatusRun, UpdateEnrollmentStatus, he, transitionStatus, h]
  · simp [UpdateEnrollmentStatusRun, UpdateEnrollmentStatus, hj]
  · have hne := notfound_ne_cannot (action ++ (" enrollment in status: " ++ e.status))
    simpa [String.append_assoc] using hne

/-- Witness for C3 on a concrete enrolled row and an unknown id. -/
theorem enrollment_terminal_invalid_witness :
    (findEnrollment edbEnr 1 = some enrRow ∧ enrRow.status = "enrolled" ∧
      findEnrollment edbEnr 99 = none) ∧
    UpdateEnrollmentStatusRun edbEnr 1 "accept" "" 5 =
      (edbEnr, some ("cannot " ++ "accept" ++ " enrollment in status: " ++ enrRow.status)) ∧
    UpdateEnrollmentStatusRun edbEnr 99 "accept" "" 5 =
      (edbEnr, some "enrollment not found") :=
  ⟨⟨by decide, by decide, by decide⟩,
    (enrollment_terminal_invalid edbEnr 1 enrRow "accept" "" 5 99
      (by decide) (by decide) (by decide) (by decide)).1,
    (enrollment_terminal_invalid edbEnr 1 enrRow "accept" "" 5 99
      (by decide) (by decide) (by decide) (by decide)).2.1⟩

/-- C4: a second initiation on a pair that already has an enrollment row, in
any status, fails with the duplicate-key conflict (mapped to HTTP 409) and
leaves the table unchanged; on a fresh pair the request action succeeds with
status requested. -/
theorem enrollment_pair_conflict
    (db : List Enrollment) (nid v p : Nat) (action msg : String) (ib : Nat)
    (db2 : List Enrollment) (nid2 v2 p2 : Nat) (msg2 : String) (ib2 : Nat)
    (hdup : ∃ e ∈ db, e.volunteerId = v ∧ e.projectId = p)
    (hact : action = "request" ∨ action = "invite")
    (hfresh : ∀ e ∈ db2, ¬(e.volunteerId = v2 ∧ e.projectId = p2)) :
    CreateEnrollmentRun db nid v p action msg ib =
      (db, some ("failed to create enrollment: " ++ duplicateKeyMsg)) ∧
    createEnrollmentHttpStatus ("failed to create enrollment: " ++ duplicateKeyMsg) = 409 ∧
    CreateEnrollmentRun db2 nid2 v2 p2 "request" msg2 ib2 =
      (db2 ++ [newEnrollmentRow nid2 v2 p2 "requested" msg2 ib2], none) ∧
    (newEnrollmentRow nid2 v2 p2 "requested" msg2 ib2).status = "requested" := by
  have hany : db.any (fun e => e.volunteerId == v && e.projectId == p) = true := by
    rcases hdup with ⟨e0, he0, hv, hp⟩
    rw [List.any_eq_true]
    exact ⟨e0, he0, by simp [hv, hp]⟩
  have hany2 : db2.any (fun e => e.volunteerId == v2 && e.projectId == p2) = false := by
    rw [List.any_eq_false]
    intro x hx
    have hx2 := hfresh x hx
    simp only [Bool.and_eq_true, beq_iff_eq]
    exact hx2
  refine ⟨?_, ?_, ?_, ?_⟩
  · rcases hact with rfl | rfl <;>
      simp [CreateEnrollmentRun, CreateEnrollment, createInsert, hany]
  · decide
  · simp [CreateEnrollmentRun, CreateEnrollment, createInsert, hany2]
  · rfl

/-- Witness for C4: the pair (2, 1) of edbEnr is already enrolled, the pair
(5, 6) is fresh. -/
theorem enrollment_pair_conflict_witness :
    ((∃ e ∈ edbEnr, e.volunteerId = 2 ∧ e.projectId = 1) ∧
      (∀ e ∈ ([] : List Enrollment), ¬(e.volunteerId = 5 ∧ e.projectId = 6))) ∧
    CreateEnrollmentRun edbEnr 12 2 1 "request" "" 2 =
      (edbEnr, some ("failed to create enrollment: " ++ duplicateKeyMsg)) ∧
    CreateEnrollmentRun [] 13 5 6 "request" "" 5 =
      ([] ++ [newEnrollmentRow 13 5 6 "requested" "" 5], none) :=
  ⟨⟨by decide, by decide⟩,
    (enrollment_pair_conflict edbEnr 12 2 1 "request" "" 2 [] 13 5 6 "" 5
      (by decide) (by decide) (by decide)).1,
    (enrollment_pair_conflict edbEnr 12 2 1 "request" "" 2 [] 13 5 6 "" 5
      (by decide) (by decide) (by decide)).2.2.1⟩

/-- C9: cosine similarity always lands in the unit interval (the quotient is
clamped and rationals have no NaN), and a zero-magnitude vector on either
side, the empty vector included, gives exactly 0. -/
theorem cosine_similarity_bounds
    (sqrtQ : ℚ → ℚ) (v1 v2 z1 w1 : List (String × ℚ))
    (hs0 : sqrtQ 0 = 0) (hz1 : ∀ q ∈ z1, q.2 = 0) :
    (0 ≤ CosineSimilarity sqrtQ v1 v2 ∧ CosineSimilarity sqrtQ v1 v2 ≤ 1) ∧
    CosineSimilarity sqrtQ z1 w1 = 0 ∧
    CosineSimilarity sqrtQ w1 z1 = 0 ∧
    CosineSimilarity sqrtQ [] v2 = 0 ∧
    CosineSimilarity sqrtQ v1 [] = 0 := by
  have hfold : z1.foldl (fun acc q => acc + q.2 * q.2) 0 = 0 :=
    foldl_add_sq_zero z1 0 hz1
  refine ⟨?_, ?_, ?_, ?_, ?_⟩
  · simp only [CosineSimilarity]
    split_ifs with h1 h2 h3 h4
    · norm_num
    · norm_num
    · norm_num
    · norm_num
    · exact ⟨not_lt.mp h3, not_lt.mp h4⟩
  · by_cases hz : z1 = []
    · simp [CosineSimilarity, hz]
    · by_cases hw : w1 = []
      · simp [CosineSimilarity, hw]
      · simp [CosineSimilarity, hz, hw, hfold, hs0]
  · by_cases hz : z1 = []
    · simp [CosineSimilarity, hz]
    · by_cases hw : w1 = []
      · simp [CosineSimilarity, hw]
      · simp [CosineSimilarity, hz, hw, hfold, hs0]
  · simp [CosineSimilarity]
  · simp [CosineSimilarity]

/-- Witness for C9 with the identity as square root and small vectors. -/
theorem cosine_similarity_bounds_witness :
    (sqrtId 0 = 0 ∧ (∀ q ∈ [("go", (0:ℚ))], q.2 = 0)) ∧
    (0 ≤ CosineSimilarity sqrtId [("python", 1)] [("sql", 1/2)] ∧
      CosineSimilarity sqrtId [("python", 1)] [("sql", 1/2)] ≤ 1) ∧
    CosineSimilarity sqrtId [("go", (0:ℚ))] [("sql", 1/2)] = 0 :=
  ⟨⟨rfl, by simp⟩,
    (cosine_similarity_bounds sqrtId [("python", 1)] [("sql", 1/2)]
      [("go", (0:ℚ))] [("sql", 1/2)] rfl (by simp)).1,
    (cosine_similarity_bounds sqrtId [("python", 1)] [("sql", 1/2)]
      [("go", (0:ℚ))] [("sql", 1/2)] rfl (by simp)).2.1⟩

/-- One slot of the built vector is the COALESCE(MAX(...), 0) of the values
hashed to it. -/
theorem buildSkillVector_getD (h : Nat → Nat) (D : Nat) (pairs : List (Nat × ℚ))
    (i : Nat) (hi : i < D) :
    (buildSkillVector h D pairs).getD i 0 =
      slotValue (pairs.map fun q => (h q.1 % D + 1, q.2)) (i + 1) := by
  simp only [buildSkillVector]
  rw [List.getD_eq_getElem?_getD, List.getElem?_map, List.getElem?_range hi]
  rfl

/-- The rows hashed to slot i + 1 are exactly the pairs whose hash reduces
to i modulo the dimension. -/
theorem slotValue_map_pairs (h : Nat → Nat) (D : Nat) (pairs : List (Nat × ℚ))
    (i : Nat) :
    (((pairs.map fun q => (h q.1 % D + 1, q.2)).filter fun q => q.1 == i + 1).map
        fun q => q.2) =
      (pairs.filter fun q => h q.1 % D == i).map fun q => q.2 := by
  rw [List.filter_map, List.map_map]
  have hpred : ((fun q : Nat × ℚ => q.1 == i + 1) ∘
      (fun q : Nat × ℚ => (h q.1 % D + 1, q.2))) = fun q : Nat × ℚ => h q.1 % D == i := by
    funext q
    show (h q.1 % D + 1 == i + 1) = (h q.1 % D == i)
    by_cases hq : h q.1 % D = i
    · simp [hq]
    · have hq2 : h q.1 % D + 1 ≠ i + 1 := by omega
      simp [hq, hq2]
  rw [hpred]
  rfl

/-- The slot of the built vector, written as the max-fold over the values
hashed there. -/
theorem buildSkillVector_slot (h : Nat → Nat) (D : Nat) (pairs : List (Nat × ℚ))
    (i : Nat) (hi : i < D) :
    (buildSkillVector h D pairs).getD i 0 =
      match (pairs.filter fun q => h q.1 % D == i).map (fun q => q.2) with
      | [] => 0
      | v :: vs => vs.foldl max v := by
  rw [buildSkillVector_getD h D pairs i hi, slotValue, slotValue_map_pairs h D pairs i]

/-- C8: the vector builder sends every contributing skill to the slot
indexed by its hash modulo the dimension; a slot with no contribution is 0;
a slot with contributions holds their maximum (an upper bound that is itself
one of the contributing values, hence never a sum of distinct ones); the
empty input builds the all-zero vector; and the volunteer and project
builders are one and the same construction, so equal inputs give equal
vectors. -/
theorem skill_vector_builder_spec
    (h : Nat → Nat) (D : Nat) (pairs pairs0 : List (Nat × ℚ)) (i i0 : Nat)
    (db : Db) (vid pid : Nat)
    (hD : 0 < D) (hi : i < D) (hi0 : i0 < D)
    (hne : (pairs.filter fun q => h q.1 % D == i) ≠ [])
    (hemp : (pairs0.filter fun q => h q.1 % D == i0) = [])
    (heq : volunteerSkillPairs db vid = projectSkillPairs db pid) :
    (buildSkillVector h D pairs).length = D ∧
    (buildSkillVector h D pairs0).getD i0 0 = 0 ∧
    ((pairs.filter fun q => h q.1 % D == i).map (fun q => q.2)).all
      (fun v0 => decide (v0 ≤ (buildSkillVector h D pairs).getD i 0)) = true ∧
    (buildSkillVector h D pairs).getD i 0 ∈
      (pairs.filter fun q => h q.1 % D == i).map (fun q => q.2) ∧
    buildSkillVector h D [] = List.replicate D 0 ∧
    get_volunteer_skill_vector h D db vid = get_project_skill_vector h D db pid := by
  refine ⟨?_, ?_, ?_, ?_, ?_, ?_⟩
  · simp [buildSkillVector]
  · rw [buildSkillVector_slot h D pairs0 i0 hi0, hemp]
    simp
  · rw [List.all_eq_true]
    intro v0 hv0
    rw [decide_eq_true_eq]
    rw [buildSkillVector_slot h D pairs i hi]
    rcases hl : (pairs.filter fun q => h q.1 % D == i).map (fun q => q.2) with _ | ⟨v, vs⟩
    · rw [hl] at hv0
      cases hv0
    · rw [hl] at hv0
      rw [hl]
      rcases List.mem_cons.mp hv0 with rfl | hmem
      · exact le_foldl_max v0 vs
      · exact mem_le_foldl_max v v0 vs hmem
  · rw [buildSkillVector_slot h D pairs i hi]
    rcases hl : (pairs.filter fun q => h q.1 % D == i).map (fun q => q.2) with _ | ⟨v, vs⟩
    · exact absurd (List.map_eq_nil_iff.mp hl) hne
    · rw [hl]
      rcases foldl_max_mem v vs with hv | hv
      · have hm : vs.foldl max v ∈ v :: vs := by
          rw [hv]
          exact List.mem_cons_self v vs
        exact hm
      · exact List.mem_cons_of_mem v hv
  · rw [List.eq_replicate_iff]
    constructor
    · simp [buildSkillVector]
    · intro b hb
      simp only [buildSkillVector, List.mem_map] at hb
      rcases hb with ⟨k, _, hk⟩
      simp [slotValue] at hk
      exact hk.symm
  · rw [get_volunteer_skill_vector, get_project_skill_vector, heq]

/-- Witness for C8 with dimension 5 and an explicit two-way collision. -/
theorem skill_vector_builder_spec_witness :
    (0 < 5 ∧ 2 < 5 ∧ 3 < 5 ∧
      ((([(12, (4:ℚ)/10), (17, 9/10)] : List (Nat × ℚ)).filter
        fun q => q.1 % 5 == 2) ≠ []) ∧
      ((([(12, (4:ℚ)/10), (17, 9/10)] : List (Nat × ℚ)).filter
        fun q => q.1 % 5 == 3) = []) ∧
      volunteerSkillPairs ⟨[], [], [], [], [], []⟩ 1 =
        projectSkillPairs ⟨[], [], [], [], [], []⟩ 1) ∧
    (buildSkillVector (fun n => n) 5 [(12, (4:ℚ)/10), (17, 9/10)]).length = 5 ∧
    (buildSkillVector (fun n => n) 5 [(12, (4:ℚ)/10), (17, 9/10)]).getD 2 0 ∈
      ((([(12, (4:ℚ)/10), (17, 9/10)] : List (Nat × ℚ)).filter
        fun q => (fun n => n) q.1 % 5 == 2).map fun q => q.2) ∧
    buildSkillVector (fun n => n) 5 [] = List.replicate 5 0 :=
  ⟨⟨by decide, by decide, by decide, by decide, by decide, rfl⟩,
    (skill_vector_builder_spec (fun n => n) 5 [(12, (4:ℚ)/10), (17, 9/10)]
      [(12, (4:ℚ)/10), (17, 9/10)] 2 3 ⟨[], [], [], [], [], []⟩ 1 1
      (by decide) (by decide) (by decide) (by decide) (by decide) rfl).1,
    (skill_vector_builder_spec (fun n => n) 5 [(12, (4:ℚ)/10), (17, 9/10)]
      [(12, (4:ℚ)/10), (17, 9/10)] 2 3 ⟨[], [], [], [], [], []⟩ 1 1
      (by decide) (by decide) (by decide) (by decide) (by decide) rfl).2.2.2.1,
    (skill_vector_builder_spec (fun n => n) 5 [(12, (4:ℚ)/10), (17, 9/10)]
      [(12, (4:ℚ)/10), (17, 9/10)] 2 3 ⟨[], [], [], [], [], []⟩ 1 1
      (by decide) (by decide) (by decide) (by decide) (by decide) rfl).2.2.2.2.1⟩

/-- C10: the on-demand weights are normalized by their sum, so scaling both
weights by any positive factor changes nothing, and a pair of zero weights
falls back to the 0.7/0.3 defaults. -/
theorem onDemand_weight_normalization
    (hav : ℚ → ℚ → ℚ → ℚ → ℚ) (skillScoreFn : Nat → Nat → ℚ) (db : Db)
    (pid : Nat) (ws wd c maxKm : ℚ) (lim : Nat)
    (hws : 0 < ws) (hwd : 0 < wd) (hc : 0 < c) :
    findMatchingVolunteersOnDemand hav skillScoreFn db pid (c * ws) (c * wd) maxKm lim =
      findMatchingVolunteersOnDemand hav skillScoreFn db pid ws wd maxKm lim ∧
    normalizeOnDemandWeights 0 0 = (7/10, 3/10) := by
  constructor
  · have h1 : ¬(c * ws = 0 ∧ c * wd = 0) := by
      intro hz
      exact absurd hz.1 (mul_pos hc hws).ne'
    have h2 : ¬(ws = 0 ∧ wd = 0) := by
      intro hz
      exact absurd hz.1 hws.ne'
    have hnorm : normalizeOnDemandWeights (c * ws) (c * wd) =
        normalizeOnDemandWeights ws wd := by
      simp only [normalizeOnDemandWeights, if_neg h1, if_neg h2]
      rw [← mul_add, mul_div_mul_left _ _ (ne_of_gt hc),
        mul_div_mul_left _ _ (ne_of_gt hc)]
    rw [findMatchingVolunteersOnDemand, findMatchingVolunteersOnDemand, hnorm]
  · simp only [normalizeOnDemandWeights, if_pos (⟨rfl, rfl⟩ : (0:ℚ) = 0 ∧ (0:ℚ) = 0)]
    norm_num

/-- Witness for C10 with scale factor 2 and the default weights. -/
theorem onDemand_weight_normalization_witness :
    ((0:ℚ) < 7/10 ∧ (0:ℚ) < 3/10 ∧ (0:ℚ) < 2) ∧
    findMatchingVolunteersOnDemand hav0 score1 demoDb 1 (2 * (7/10)) (2 * (3/10)) 100 20 =
      findMatchingVolunteersOnDemand hav0 score1 demoDb 1 (7/10) (3/10) 100 20 ∧
    normalizeOnDemandWeights 0 0 = (7/10, 3/10) :=
  ⟨⟨by norm_num, by norm_num, by norm_num⟩,
    (onDemand_weight_normalization hav0 score1 demoDb 1 (7/10) (3/10) 2 100 20
      (by norm_num) (by norm_num) (by norm_num)).1,
    (onDemand_weight_normalization hav0 score1 demoDb 1 (7/10) (3/10) 2 100 20
      (by norm_num) (by norm_num) (by norm_num)).2⟩

/-- Concrete evaluation: on demoDb the refresh produces exactly the one
record demoRecord. -/
theorem refresh_demoDb_eval :
    refresh_all_matches hav0 score1 demoDb = [demoRecord] := by
  have hsr : sameRegion (some "Ontario") (some "Ontario") = true := by decide
  have hcombos : volunteerProjectCombinations hav0 score1 demoDb = [demoCombo] := rfl
  rw [refresh_all_matches, hcombos]
  norm_num [tieredMatches, comboCombinedScore, sortDescBy, insertDescBy,
    demoCombo, demoRecord, hsr]

/-- Concrete evaluation: the enrolled pair of enrolledDb is still matched by
the refresh, because the tier-1 filter looks for the status string active,
which the enrollment state machine never writes. -/
theorem refresh_enrolledDb_eval :
    refresh_all_matches hav0 score1 enrolledDb = [demoRecord] := by
  have hsr : sameRegion (some "Ontario") (some "Ontario") = true := by decide
  have hcombos : volunteerProjectCombinations hav0 score1 enrolledDb = [demoCombo] := rfl
  rw [refresh_all_matches, hcombos]
  norm_num [tieredMatches, comboCombinedScore, sortDescBy, insertDescBy,
    demoCombo, demoRecord, hsr]

/-- Concrete evaluation: the on-demand path scores the location-less
volunteer of noLocDb with the neutral 0.5 distance factor. -/
theorem onDemand_noLocDb_eval :
    find_matching_volunteers hav0 score1 noLocDb 1 (7/10) (3/10) 100 20 =
      [⟨3, 1, 0, 17/20⟩] := by
  have h1 : find_matching_volunteers hav0 score1 noLocDb 1 (7/10) (3/10) 100 20 =
      (sortDescBy (fun r => r.combinedScore)
        [⟨3, 1, 0, 7/10 * 1 + 3/10 * onDemandDistanceFactor none 100⟩]).take 20 := rfl
  rw [h1]
  norm_num [sortDescBy, insertDescBy, onDemandDistanceFactor]

/-- C6: every record the batch refresh writes is within the 500 km radius
and strictly above the 0.1 combined-score threshold. -/
theorem refresh_respects_cutoffs
    (hav : ℚ → ℚ → ℚ → ℚ → ℚ) (skillScoreFn : Nat → Nat → ℚ) (db : Db)
    (r : MatchRecord) (hr : r ∈ refresh_all_matches hav skillScoreFn db) :
    r.distanceKm ≤ 500 ∧ r.combinedScore > 1/10 := by
  rw [refresh_all_matches, mem_sortDescBy, List.mem_filter] at hr
  obtain ⟨hrt, hcomb⟩ := hr
  simp only [tieredMatches, List.mem_map, List.mem_filter] at hrt
  obtain ⟨c, ⟨hc, hcd⟩, hrc⟩ := hrt
  subst hrc
  exact ⟨of_decide_eq_true hcd, of_decide_eq_true hcomb⟩

/-- Witness for C6 on the concrete demoDb refresh. -/
theorem refresh_respects_cutoffs_witness :
    demoRecord ∈ refresh_all_matches hav0 score1 demoDb ∧
    demoRecord.distanceKm ≤ 500 ∧ demoRecord.combinedScore > 1/10 :=
  ⟨by rw [refresh_demoDb_eval]; exact List.mem_singleton_self demoRecord,
    (refresh_respects_cutoffs hav0 score1 demoDb demoRecord
      (by rw [refresh_demoDb_eval]; exact List.mem_singleton_self demoRecord)).1,
    (refresh_respects_cutoffs hav0 score1 demoDb demoRecord
      (by rw [refresh_demoDb_eval]; exact List.mem_singleton_self demoRecord)).2⟩

/-- C7: every surviving record's combined score follows the regional
weighting of the project and user rows it came from: 0.7 skill and 0.3
proximity in the same designated region, 0.4 and 0.6 otherwise. -/
theorem refresh_combined_formula
    (hav : ℚ → ℚ → ℚ → ℚ → ℚ) (skillScoreFn : Nat → Nat → ℚ) (db : Db)
    (r : MatchRecord) (hr : r ∈ refresh_all_matches hav skillScoreFn db) :
    (db.projects.any fun p => db.users.any fun u =>
      p.id == r.projectId && u.id == r.volunteerId &&
      decide (r.combinedScore =
        if sameRegion p.locationName u.locationName then
          7/10 * r.skillScore + 3/10 * max 0 (1 - r.distanceKm / 100)
        else
          4/10 * r.skillScore + 6/10 * max 0 (1 - r.distanceKm / 100))) = true := by
  rw [refresh_all_matches, mem_sortDescBy, List.mem_filter] at hr
  obtain ⟨hrt, _⟩ := hr
  simp only [tieredMatches, List.mem_map, List.mem_filter] at hrt
  obtain ⟨c, ⟨hc, _⟩, hrc⟩ := hrt
  subst hrc
  simp only [volunteerProjectCombinations, List.mem_flatMap, List.mem_map,
    List.mem_filter] at hc
  obtain ⟨p, hp, u, ⟨hu, _⟩, hcu⟩ := hc
  subst hcu
  rw [List.any_eq_true]
  refine ⟨p, hp, ?_⟩
  rw [List.any_eq_true]
  refine ⟨u, hu, ?_⟩
  simp [comboCombinedScore]

/-- Witness for C7 on the concrete demoDb refresh. -/
theorem refresh_combined_formula_witness :
    demoRecord ∈ refresh_all_matches hav0 score1 demoDb ∧
    (demoDb.projects.any fun p => demoDb.users.any fun u =>
      p.id == demoRecord.projectId && u.id == demoRecord.volunteerId &&
      decide (demoRecord.combinedScore =
        if sameRegion p.locationName u.locationName then
          7/10 * demoRecord.skillScore + 3/10 * max 0 (1 - demoRecord.distanceKm / 100)
        else
          4/10 * demoRecord.skillScore + 6/10 * max 0 (1 - demoRecord.distanceKm / 100))) = true :=
  ⟨by rw [refresh_demoDb_eval]; exact List.mem_singleton_self demoRecord,
    refresh_combined_formula hav0 score1 demoDb demoRecord
      (by rw [refresh_demoDb_eval]; exact List.mem_singleton_self demoRecord)⟩

/-- C5 (amended): the batch refresh only ever records volunteers with known
coordinates, while the on-demand path keeps a pair with unknown distance and
scores it with the neutral 0.5 distance factor instead of excluding it. -/
theorem noLocation_batch_excluded_onDemand_neutral
    (hav : ℚ → ℚ → ℚ → ℚ → ℚ) (skillScoreFn : Nat → Nat → ℚ) (db : Db)
    (r : MatchRecord) (maxKm : ℚ) (hr : r ∈ refresh_all_matches hav skillScoreFn db) :
    (db.users.any fun u =>
      u.id == r.volunteerId && u.latitude.isSome && u.longitude.isSome) = true ∧
    onDemandDistanceOk none maxKm = true ∧
    onDemandDistanceFactor none maxKm = 1/2 := by
  refine ⟨?_, rfl, rfl⟩
  rw [refresh_all_matches, mem_sortDescBy, List.mem_filter] at hr
  obtain ⟨hrt, _⟩ := hr
  simp only [tieredMatches, List.mem_map, List.mem_filter] at hrt
  obtain ⟨c, ⟨hc, _⟩, hrc⟩ := hrt
  subst hrc
  simp only [volunteerProjectCombinations, List.mem_flatMap, List.mem_map,
    List.mem_filter] at hc
  obtain ⟨p, hp, u, ⟨hu, htier⟩, hcu⟩ := hc
  subst hcu
  simp only [tier1Eligible, Bool.and_eq_true] at htier
  obtain ⟨⟨⟨⟨_, _⟩, hlat⟩, hlon⟩, _⟩ := htier
  rw [List.any_eq_true]
  refine ⟨u, hu, ?_⟩
  simp [hlat, hlon]

/-- Witness for the amended C5 on the concrete demoDb refresh. -/
theorem noLocation_batch_excluded_onDemand_neutral_witness :
    demoRecord ∈ refresh_all_matches hav0 score1 demoDb ∧
    (demoDb.users.any fun u =>
      u.id == demoRecord.volunteerId && u.latitude.isSome && u.longitude.isSome) = true ∧
    onDemandDistanceOk none 100 = true ∧
    onDemandDistanceFactor none 100 = 1/2 :=
  ⟨by rw [refresh_demoDb_eval]; exact List.mem_singleton_self demoRecord,
    (noLocation_batch_excluded_onDemand_neutral hav0 score1 demoDb demoRecord 100
      (by rw [refresh_demoDb_eval]; exact List.mem_singleton_self demoRecord)).1,
    (noLocation_batch_excluded_onDemand_neutral hav0 score1 demoDb demoRecord 100
      (by rw [refresh_demoDb_eval]; exact List.mem_singleton_self demoRecord)).2.1,
    (noLocation_batch_excluded_onDemand_neutral hav0 score1 demoDb demoRecord 100
      (by rw [refresh_demoDb_eval]; exact List.mem_singleton_self demoRecord)).2.2⟩

/-- C5 (counterexample to the claim as stated): the location-less volunteer
3 of noLocDb appears in the on-demand ranking of task 1, so a seeker with no
known location is not excluded from all task rankings. -/
theorem noLocation_included_onDemand_cex :
    (find_matching_volunteers hav0 score1 noLocDb 1 (7/10) (3/10) 100 20).any
      (fun r => r.volunteerId == 3) = true ∧
    noLocDb.users.any
      (fun u => u.id == 3 && u.latitude.isNone && u.longitude.isNone) = true := by
  constructor
  · rw [onDemand_noLocDb_eval]
    decide
  · decide

/-- C1 (the code against the claim): in enrolledDb the pair (volunteer 2,
project 1) has an Enrollment row in status enrolled, yet the refreshed cache
contains a MatchRecord for exactly that pair: the tier-1 filter of
refresh_all_matches compares the enrollment status against the string
active, a value the enrollment state machine never writes. -/
theorem enrolled_pair_not_excluded_from_refresh :
    enrolledDb.enrollments.any
      (fun e => e.volunteerId == 2 && e.projectId == 1 && e.status == "enrolled") = true ∧
    (refresh_all_matches hav0 score1 enrolledDb).any
      (fun r => r.projectId == 1 && r.volunteerId == 2) = true := by
  constructor
  · decide
  · rw [refresh_enrolledDb_eval]
    decide
